import Mathlib

/-!
# TabLimiter — verification of the limit-enforcement decision engine

A shallow embedding of the TabLimiter browser extension's enforcement logic
(`extension/background.js`), its domain-analysis helper on the options page,
and the badge reporter, together with theorems settling the specification
claims about them.

Asynchronous host-API reads (tab counts, window lists) are modelled as
explicit snapshot parameters: each `chrome.tabs.query` / `chrome.windows.getAll`
await point in the source receives its own input, so interleavings where the
world changes between reads are representable.  Host-API writes
(`chrome.tabs.remove`, `chrome.tabs.move`, `chrome.windows.create`,
`chrome.windows.update`, `chrome.notifications.create`,
`chrome.action.setBadgeText`) are modelled as the returned result values.

JS strings are worked with as their character lists (`List Char`, exposed
through `String.data` / `String.mk` at the boundaries), with the JS string
operations the source uses (`split`, `startsWith`, `endsWith`, `toLowerCase`,
`join`) given structural-recursion models so that every definition evaluates
by kernel reduction.
-/

namespace TabLimiter

/-- Violation category; the source passes the strings "window" / "total" /
"domain" (called `place`). -/
inductive Place where
  | window
  | total
  | domain
deriving DecidableEq

/-- The persisted configuration read by `getOptions` in
`extension/background.js`.  Cap fields are JS numbers holding integers; an
unset `maxDomain` is modelled as `0` (both `undefined` and `0` are falsy, and
the source only uses `maxDomain` through the falsy-guarded `maxDomain || 10`
and through comparisons). -/
structure Options where
  maxTotal : Int
  maxWindow : Int
  maxDomain : Int
  exceedTabNewWindow : Bool
  displayAlert : Bool
  countPinnedTabs : Bool
  displayBadge : Bool
  alertMessage : String
deriving DecidableEq

/-- `detectTooManyTabsInWindow` (extension/background.js lines 259-266): the
promise resolves with "window" only when `maxWindow ≥ 1` and the
current-window tab count (respecting `countPinnedTabs`, supplied here as the
snapshot `windowTabCount`) strictly exceeds `maxWindow`; a promise that never
resolves is `none`. -/
def detectTooManyTabsInWindow (options : Options) (windowTabCount : Nat) : Option Place :=
  if options.maxWindow < 1 then none
  else if (windowTabCount : Int) > options.maxWindow then some .window
  else none

/-- `detectTooManyTabsInTotal` (extension/background.js lines 269-276),
analogous to the window detector for the global tab count. -/
def detectTooManyTabsInTotal (options : Options) (totalTabCount : Nat) : Option Place :=
  if options.maxTotal < 1 then none
  else if (totalTabCount : Int) > options.maxTotal then some .total
  else none

/-- The domain limit used by `DomainTracker.getDomainInfo`
(extension/background.js line 120): the JS expression `maxDomain || 10`,
falling back to 10 when `maxDomain` is falsy (0 or unset). -/
def domainLimit (options : Options) : Int :=
  if options.maxDomain = 0 then 10 else options.maxDomain

/-- `detectTooManyTabsInDomain` (extension/background.js lines 279-299):
through `getDomainInfo` it compares the count of tabs sharing the created
tab's domain key (snapshot `domainTabCount`) against `domainLimit`, reporting
"domain" when `tabCount >= limit`; otherwise it returns null (`none`). -/
def detectTooManyTabsInDomain (options : Options) (domainTabCount : Nat) : Option Place :=
  if (domainTabCount : Int) ≥ domainLimit options then some .domain
  else none

/-- One open browser window as seen by `chrome.windows.getAll({populate:true})`:
its id and the pinned-flags of its tabs. -/
structure WindowInfo where
  id : Int
  tabs : List Bool
deriving DecidableEq

/-- The filtered tab count of a window in `handleExceedTabs`
(extension/background.js lines 431-433): all tabs when `countPinnedTabs`,
otherwise only non-pinned tabs. -/
def countedWindowTabs (options : Options) (w : WindowInfo) : Nat :=
  (w.tabs.filter (fun pinned => if options.countPinnedTabs then true else !pinned)).length

/-- `remainingCapacity` for one window (extension/background.js line 434). -/
def remainingCapacity (options : Options) (w : WindowInfo) : Int :=
  options.maxWindow - (countedWindowTabs options w : Int)

/-- One iteration of the best-window `for` loop in `handleExceedTabs`
(extension/background.js lines 430-440): the accumulator is the pair
`(bestWindow, maxRemainingCapacity)`, updated when the window's remaining
capacity strictly exceeds the running maximum. -/
def bestWindowStep (options : Options) (acc : Option WindowInfo × Int) (w : WindowInfo) :
    Option WindowInfo × Int :=
  if remainingCapacity options w > acc.2 then (some w, remainingCapacity options w) else acc

/-- The whole best-window loop, started from `bestWindow = null`,
`maxRemainingCapacity = 0`. -/
def bestWindowLoop (options : Options) (windows : List WindowInfo) :
    Option WindowInfo × Int :=
  windows.foldl (bestWindowStep options) (none, 0)

/-- The externally visible outcome of `handleExceedTabs`:
* `removed p` — `chrome.tabs.remove(tab.id)` followed by
  `displayAlert(options, p, false)`;
* `moved wid p m` — `chrome.tabs.move(tab.id, {windowId: wid, index: -1})`,
  then `chrome.windows.update(wid, {focused: true})` (the target window is
  focused), then `displayAlert(options, p, m)`;
* `createdWindow p m` — `chrome.windows.create({tabId: tab.id, focused: true})`
  then `displayAlert(options, p, m)`. -/
inductive ExceedResult where
  | removed (alertPlace : Place)
  | moved (windowId : Int) (alertPlace : Place) (movedToOtherWindow : Bool)
  | createdWindow (alertPlace : Place) (movedToOtherWindow : Bool)
deriving DecidableEq

/-- `handleExceedTabs` (extension/background.js lines 407-476).  The two
`tabQuery(options)` awaits receive the snapshots `totalTabs1` (the critical
first total check) and `totalTabs2` (the double check before relocating);
`windows` is the `chrome.windows.getAll` snapshot.  The error-free path is
modelled; the `catch` fallback only ever removes the tab. -/
def handleExceedTabs (options : Options) (place : Place)
    (totalTabs1 : Nat) (windows : List WindowInfo) (totalTabs2 : Nat) : ExceedResult :=
  if (totalTabs1 : Int) ≥ options.maxTotal then .removed .total
  else if options.exceedTabNewWindow = true ∧ place = .window then
    if (totalTabs2 : Int) ≥ options.maxTotal then .removed .total
    else
      match (bestWindowLoop options windows).1 with
      | some w =>
        if (bestWindowLoop options windows).2 > 0 then .moved w.id place true
        else .createdWindow place true
      | none => .createdWindow place true
  else .removed place

/-- The world snapshots consumed by one `handleTabCreated` cycle, in the order
the source awaits them: the immediate pass reads `domainCount1` (tabs sharing
the created tab's domain key), `windowCount1` and `totalCount1`; the pass
scheduled by `setTimeout(..., 100)` reads `domainCount2`, `windowCount2`,
`totalCount2`; a `handleExceedTabs` call started by the second pass reads
`exceedTotal1`, `windows`, `exceedTotal2`. -/
structure Snapshots where
  domainCount1 : Nat
  windowCount1 : Nat
  totalCount1 : Nat
  domainCount2 : Nat
  windowCount2 : Nat
  totalCount2 : Nat
  exceedTotal1 : Nat
  windows : List WindowInfo
  exceedTotal2 : Nat
deriving DecidableEq

/-- The `Promise.race` of the window and total detectors
(extension/background.js lines 494-497 and 510-513).  A race of two promises
that each resolve only on violation: `none` when neither resolves.  When both
would resolve, the host scheduler picks a winner; the model lets the window
detector win (no claim depends on this choice — both winners reach the same
`handleExceedTabs`, whose own total pre-check dominates). -/
def raceWindowTotal (options : Options) (windowCount totalCount : Nat) : Option Place :=
  match detectTooManyTabsInWindow options windowCount with
  | some p => some p
  | none => detectTooManyTabsInTotal options totalCount

/-- Outcome of one `handleTabCreated` cycle:
* `immediateDomainRemove` — the immediate pass found a domain violation and
  ran `chrome.tabs.remove(tab.id)`, `displayAlert(options, "domain", false)`
  and `updateBadge` at once (extension/background.js lines 484-491), before
  the 100ms settle delay; no second pass is scheduled;
* `noViolation` — the immediate race resolved nothing, so the `then` callback
  scheduling the settle-delay recheck never runs and the cycle ends with no
  action;
* `settled r` — the recheck after the 100ms `setTimeout` ran; `r` is the
  `handleExceedTabs` outcome it triggered (`none` when the recheck found no
  violation and nothing was done). -/
inductive CreatedOutcome where
  | immediateDomainRemove
  | noViolation
  | settled (r : Option ExceedResult)
deriving DecidableEq

/-- `handleTabCreated` (extension/background.js lines 478-526) on the
error-free path, as a function of the configuration and the world snapshots. -/
def handleTabCreated (options : Options) (s : Snapshots) : CreatedOutcome :=
  match detectTooManyTabsInDomain options s.domainCount1 with
  | some _ => .immediateDomainRemove
  | none =>
    match raceWindowTotal options s.windowCount1 s.totalCount1 with
    | none => .noViolation
    | some _ =>
      match detectTooManyTabsInDomain options s.domainCount2 with
      | some p =>
        .settled (some (handleExceedTabs options p s.exceedTotal1 s.windows s.exceedTotal2))
      | none =>
        match raceWindowTotal options s.windowCount2 s.totalCount2 with
        | some p =>
          .settled (some (handleExceedTabs options p s.exceedTotal1 s.windows s.exceedTotal2))
        | none => .settled none

/-- `windowRemaining` (extension/background.js lines 229-230). -/
def windowRemaining (options : Options) (windowTabCount : Nat) : Int :=
  options.maxWindow - (windowTabCount : Int)

/-- `totalRemaining` (extension/background.js lines 232-233). -/
def totalRemaining (options : Options) (totalTabCount : Nat) : Int :=
  options.maxTotal - (totalTabCount : Int)

/-- `updateBadge` (extension/background.js lines 235-254): the string written
through `chrome.action.setBadgeText` — cleared to `""` when `displayBadge` is
off, otherwise `Math.min(windowRemaining, totalRemaining).toString()`. -/
def updateBadge (options : Options) (windowTabCount totalTabCount : Nat) : String :=
  if options.displayBadge = false then ""
  else toString (min (windowRemaining options windowTabCount)
    (totalRemaining options totalTabCount))

/-- Modelled from the spec (section 4.5 Badge/Status Reporter, property P5),
for comparison with `updateBadge`: the badge text as the minimum of
remaining-total, remaining-window and the active tab's remaining domain
capacity (`maxDomain` minus the active tab's domain count). -/
def specBadgeText (options : Options)
    (windowTabCount totalTabCount activeDomainCount : Nat) : String :=
  if options.displayBadge = false then ""
  else toString (min (windowRemaining options windowTabCount)
    (min (totalRemaining options totalTabCount)
      (options.maxDomain - (activeDomainCount : Int))))

/-- JS `String.prototype.toLowerCase` on the ASCII strings this system
handles. -/
def toLowerChars (l : List Char) : List Char := l.map Char.toLower

/-- JS `String.prototype.split` with a single-character separator: splits at
every occurrence, keeping empty parts. -/
def splitOnChar (sep : Char) : List Char → List (List Char)
  | [] => [[]]
  | c :: rest =>
    if c = sep then [] :: splitOnChar sep rest
    else
      match splitOnChar sep rest with
      | [] => [[c]]
      | part :: parts => (c :: part) :: parts

/-- Split a string at the FIRST occurrence of a multi-character separator,
returning the parts before and after it (`none` when the separator does not
occur). -/
def breakOnSeq (sep : List Char) : List Char → Option (List Char × List Char)
  | [] => none
  | c :: rest =>
    if sep.isPrefixOf (c :: rest) then some ([], (c :: rest).drop sep.length)
    else
      match breakOnSeq sep rest with
      | some p => some (c :: p.1, p.2)
      | none => none

/-- The last part of a split (JS array indexing from the end), with a default
for the impossible empty case. -/
def lastPart (parts : List (List Char)) (dflt : List Char) : List Char :=
  match parts.reverse with
  | h :: _ => h
  | [] => dflt

/-- JS `Array.prototype.join(".")`. -/
def joinWithDot : List (List Char) → List Char
  | [] => []
  | [p] => p
  | p :: rest => p ++ '.' :: joinWithDot rest

/-- Model of hostname extraction by the platform URL constructor
(`new URL(url).hostname`), an external collaborator of the classifiers, for
the URL shapes this development exercises (scheme, authority, optional
userinfo, optional port, path/query/fragment).  Returns `none` where the
constructor throws (no scheme separator, or an empty host).  The serialized
hostname is lowercased; a bracketed IPv6 host keeps its brackets; otherwise a
trailing port is dropped. -/
def urlHostnameChars (url : List Char) : Option (List Char) :=
  match breakOnSeq [':', '/', '/'] url with
  | none => none
  | some schemeSplit =>
    let authority := schemeSplit.2.takeWhile (fun c => !(c == '/' || c == '?' || c == '#'))
    let hostPort := lastPart (splitOnChar '@' authority) authority
    let host :=
      match hostPort with
      | '[' :: _ => hostPort.takeWhile (fun c => !(c == ']')) ++ [']']
      | _ =>
        match splitOnChar ':' hostPort with
        | h :: _ => h
        | [] => hostPort
    let host := toLowerChars host
    if host = [] then none else some host

/-- The IPv4 test of both classifiers: the anchored pattern of three
1-to-3-digit groups each followed by a dot, then a final 1-to-3-digit group
(extension/background.js line 58). -/
def isIPv4Chars (hostname : List Char) : Bool :=
  let okPart := fun (s : List Char) =>
    decide (1 ≤ s.length) && decide (s.length ≤ 3) && s.all Char.isDigit
  match splitOnChar '.' hostname with
  | [a, b, c, d] => okPart a && okPart b && okPart c && okPart d
  | _ => false

/-- `isIPv4Chars` at the `String` boundary. -/
def isIPv4 (hostname : String) : Bool := isIPv4Chars hostname.data

/-- The hostname-classification tail of `DomainTracker.extractDomainFromUrl`
(extension/background.js lines 53-74): loopback names collapse to
"localhost", IPv4 and bracketed IPv6 literals are returned verbatim, and any
other hostname is returned with a single leading "www." label stripped
(an emptied hostname falls back to "unknown"). -/
def classifyHostnameChars (hostname : List Char) : List Char :=
  if hostname = "localhost".data ∨ hostname = "127.0.0.1".data ∨ hostname = "::1".data then
    "localhost".data
  else if isIPv4Chars hostname then hostname
  else if "[".data.isPrefixOf hostname ∧ "]".data.isSuffixOf hostname then hostname
  else
    let hostname := if "www.".data.isPrefixOf hostname then hostname.drop 4 else hostname
    if hostname = [] then "unknown".data else hostname

/-- `classifyHostnameChars` at the `String` boundary. -/
def classifyHostname (hostname : String) : String :=
  String.mk (classifyHostnameChars hostname.data)

/-- `DomainTracker.extractDomainFromUrl` (extension/background.js lines
17-79), the domain classifier used for counting and enforcement.  The empty
string is the only falsy value a URL string can take; a thrown parse error is
the `none` branch of `urlHostnameChars`, caught and mapped to "unknown". -/
def extractDomainFromUrlChars (url : List Char) : List Char :=
  if url = [] then "unknown".data
  else if "chrome://".data.isPrefixOf url ∨ "chrome-extension://".data.isPrefixOf url
      ∨ "moz-extension://".data.isPrefixOf url then "system".data
  else if "data:".data.isPrefixOf url ∨ "blob:".data.isPrefixOf url then "data".data
  else if "file://".data.isPrefixOf url then "file".data
  else if "localhost".data.isPrefixOf url then "localhost".data
  else
    match urlHostnameChars url with
    | none => "unknown".data
    | some hostname => classifyHostnameChars hostname

/-- `extractDomainFromUrlChars` at the `String` boundary. -/
def extractDomainFromUrl (url : String) : String :=
  String.mk (extractDomainFromUrlChars url.data)

/-- Protocols excluded by the options-page `extractDomain`
(extension/options.js lines 45-56). -/
def excludedProtocols : List (List Char) :=
  ["chrome://".data, "chrome-extension://".data, "moz-extension://".data,
   "edge-extension://".data, "safari-extension://".data, "file://".data,
   "about:".data, "data:".data, "javascript:".data, "blob:".data]

/-- The known multi-part public-suffix patterns of the options-page
`extractDomain` (extension/options.js lines 101-123). -/
def multiPartTlds : List (List Char) :=
  ["co.uk".data, "co.jp".data, "co.kr".data, "co.za".data, "co.nz".data,
   "co.in".data, "com.au".data, "com.br".data, "com.mx".data, "com.ar".data,
   "com.co".data, "net.au".data, "org.uk".data, "ac.uk".data, "gov.uk".data,
   "edu.au".data, "github.io".data, "herokuapp.com".data, "blogspot.com".data,
   "wordpress.com".data, "tumblr.com".data]

/-- The loose IPv6 test of the options-page `extractDomain`
(extension/options.js line 76): an optional leading bracket, one or more
hex-digit-or-colon characters, an optional trailing bracket
(case-insensitive). -/
def isIPv6Loose (hostname : List Char) : Bool :=
  let s := if "[".data.isPrefixOf hostname then hostname.drop 1 else hostname
  let s := if "]".data.isSuffixOf s then s.dropLast else s
  decide (1 ≤ s.length) &&
    s.all (fun c => c.isDigit || ('a' ≤ c && c ≤ 'f') || ('A' ≤ c && c ≤ 'F') || c == ':')

/-- The multi-part-TLD adjustment loop of the options-page `extractDomain`
(extension/options.js lines 126-139), entered when the hostname has at least
three labels; the first matching pattern wins and breaks.  `lastThree` and
`lastTwo` are the joins of the last three and last two labels, and `slice3`
is `parts.slice(-3).join(".")` (which equals `lastThree`). -/
def multiPartLoop (lastThree lastTwo slice3 : List Char) (lenGe4 : Bool) :
    List (List Char) → Option (List Char)
  | [] => none
  | tld :: rest =>
    if tld.isSuffixOf lastThree then some lastThree
    else if lastTwo = tld ∧ lenGe4 = true then some slice3
    else multiPartLoop lastThree lastTwo slice3 lenGe4 rest

/-- The options-page `extractDomain` (extension/options.js lines 37-146):
maps a URL to its registrable root domain (`null` — here `none` — for
excluded protocols, parse failures and empty hostnames). -/
def extractDomainChars (url : List Char) : Option (List Char) :=
  if url = [] then none
  else
    let lowerUrl := toLowerChars url
    if excludedProtocols.any (fun p => p.isPrefixOf lowerUrl) then none
    else
      match urlHostnameChars url with
      | none => none
      | some hostname =>
        let hostname := toLowerChars hostname
        if isIPv4Chars hostname || isIPv6Loose hostname then some hostname
        else if hostname = "localhost".data then some hostname
        else
          let parts := splitOnChar '.' hostname
          if parts.length < 2 then some hostname
          else
            let rootDomain := joinWithDot (parts.drop (parts.length - 2))
            if 3 ≤ parts.length then
              let lastThree := joinWithDot (parts.drop (parts.length - 3))
              let lastTwo := joinWithDot (parts.drop (parts.length - 2))
              match multiPartLoop lastThree lastTwo lastThree
                  (decide (4 ≤ parts.length)) multiPartTlds with
              | some adjusted => some adjusted
              | none => some rootDomain
            else some rootDomain

/-- `extractDomainChars` at the `String` boundary. -/
def extractDomain (url : String) : Option String :=
  (extractDomainChars url.data).map String.mk

/-- The count `updateDomainCounts` (extension/background.js lines 82-103)
produces for one domain key: the number of tabs whose URL classifies to that
key. -/
def countTabsForDomain (urls : List String) (key : String) : Nat :=
  (urls.filter (fun u => decide (extractDomainFromUrl u = key))).length

/-- Skip leading JS whitespace characters. -/
def skipSpaces : List Char → List Char
  | c :: rest =>
    if c = ' ' ∨ c = '\t' ∨ c = '\n' ∨ c = '\r' then skipSpaces rest else c :: rest
  | [] => []

/-- Collect the placeholder token: maximal run of characters that are neither
JS whitespace nor a closing brace. -/
def takeToken : List Char → List Char × List Char
  | [] => ([], [])
  | c :: rest =>
    if c = ' ' ∨ c = '\t' ∨ c = '\n' ∨ c = '\r' ∨ c = '}' then ([], c :: rest)
    else ((c :: (takeToken rest).1), (takeToken rest).2)

/-- Parse one placeholder body (the input starts right after an opening
brace): optional whitespace, a nonempty token, optional whitespace, a closing
brace.  Returns the token and the remaining input, or `none` when the shape
does not match. -/
def parsePlaceholder (l : List Char) : Option (List Char × List Char) :=
  if (takeToken (skipSpaces l)).1 = [] then none
  else
    match skipSpaces (takeToken (skipSpaces l)).2 with
    | '}' :: rest => some ((takeToken (skipSpaces l)).1, rest)
    | _ => none

/-- The template-substitution pass of `displayAlert`
(extension/background.js line 384): every placeholder — an opening brace,
optional whitespace, a token of non-whitespace characters, optional
whitespace, a closing brace — is replaced by `repl token`; an opening brace
that does not start a well-formed placeholder is kept verbatim.  This models
the source's global regex replace for templates whose tokens contain no
braces (every template in the repository).  Structural recursion on a fuel
argument; the top-level call supplies the input length as fuel, which
suffices because every step consumes at least one character. -/
def renderCharsFuel (repl : List Char → List Char) : Nat → List Char → List Char
  | 0, l => l
  | _ + 1, [] => []
  | fuel + 1, c :: rest =>
    if c = '{' then
      match parsePlaceholder rest with
      | some p => repl p.1 ++ renderCharsFuel repl fuel p.2
      | none => c :: renderCharsFuel repl fuel rest
    else c :: renderCharsFuel repl fuel rest

/-- The `options["max" + capitalizeFirstLetter(place)]` lookup in the alert
replacer (extension/background.js line 377): "maxWindow", "maxTotal" or
"maxDomain" according to the place string. -/
def maxOfPlace (options : Options) : Place → Int
  | .window => options.maxWindow
  | .total => options.maxTotal
  | .domain => options.maxDomain

/-- The replacer's default case `options[p1] || "?"` (extension/background.js
line 380): a dynamic property lookup on the options object with fallback "?"
for falsy values (absent keys, 0, false, the empty string); the substitution
stringifies the looked-up value. -/
def optionLookupOr (options : Options) (key : String) : String :=
  if key = "maxTotal" then
    if options.maxTotal = 0 then "?" else toString options.maxTotal
  else if key = "maxWindow" then
    if options.maxWindow = 0 then "?" else toString options.maxWindow
  else if key = "maxDomain" then
    if options.maxDomain = 0 then "?" else toString options.maxDomain
  else if key = "exceedTabNewWindow" then
    if options.exceedTabNewWindow then "true" else "?"
  else if key = "displayAlert" then
    if options.displayAlert then "true" else "?"
  else if key = "countPinnedTabs" then
    if options.countPinnedTabs then "true" else "?"
  else if key = "displayBadge" then
    if options.displayBadge then "true" else "?"
  else if key = "alertMessage" then
    if options.alertMessage = "" then "?" else options.alertMessage
  else "?"

/-- The `replacer` switch of `displayAlert` (extension/background.js lines
368-382): "place"/"which" become "per domain", "one window" or "total";
"maxPlace"/"maxWhich" become the stringified cap for the place; anything else
falls through to the dynamic options lookup. -/
def alertReplacer (options : Options) (place : Place) (p1 : List Char) : List Char :=
  if p1 = "place".data ∨ p1 = "which".data then
    if place = .domain then "per domain".data
    else if place = .window then "one window".data
    else "total".data
  else if p1 = "maxPlace".data ∨ p1 = "maxWhich".data then
    (toString (maxOfPlace options place)).data
  else (optionLookupOr options (String.mk p1)).data

/-- The notification text `displayAlert` builds (extension/background.js
lines 384-389): the rendered template, prefixed with
"Opened in another window. " when the tab was relocated under
`exceedTabNewWindow` for a window violation. -/
def renderAlertMessage (options : Options) (place : Place)
    (movedToOtherWindow : Bool) : String :=
  let rendered := String.mk (renderCharsFuel (alertReplacer options place)
    options.alertMessage.data.length options.alertMessage.data)
  if movedToOtherWindow = true ∧ options.exceedTabNewWindow = true ∧ place = .window then
    "Opened in another window. " ++ rendered
  else rendered

/-- `displayAlert` (extension/background.js lines 362-398): the message of
the notification it creates, or `none` when `displayAlert` is disabled and no
notification is shown. -/
def displayAlert (options : Options) (place : Place)
    (movedToOtherWindow : Bool) : Option String :=
  if options.displayAlert = false then none
  else some (renderAlertMessage options place movedToOtherWindow)

/-- A JS number as `setDomainLimit` can receive one: finite values are
restricted to integers (every threshold in the validation is an integer, and
a non-integer finite double satisfies the two comparisons exactly as its real
value does), with the infinities and NaN kept because their comparison
behavior differs. -/
inductive JSNumber where
  | finite (val : Int)
  | posInf
  | negInf
  | nan
deriving DecidableEq

/-- A JS value passed as the `limit` argument of `setDomainLimit`; the
non-number constructors are the shapes `typeof limit !== "number"` rejects. -/
inductive JSValue where
  | number (n : JSNumber)
  | str (s : String)
  | boolean (b : Bool)
  | undefined
  | null
deriving DecidableEq

/-- The JS comparison `n < k` for an integer constant `k`: false for NaN. -/
def jsLt (n : JSNumber) (k : Int) : Bool :=
  match n with
  | .finite v => v < k
  | .posInf => false
  | .negInf => true
  | .nan => false

/-- The JS comparison `n > k` for an integer constant `k`: false for NaN. -/
def jsGt (n : JSNumber) (k : Int) : Bool :=
  match n with
  | .finite v => v > k
  | .posInf => true
  | .negInf => false
  | .nan => false

/-- The slice of `chrome.storage.sync` that `setDomainLimit` writes. -/
structure SyncStorage where
  maxDomain : Option JSNumber
deriving DecidableEq

/-- `setDomainLimit` (extension/background.js lines 335-358): the argument is
validated before any storage write — `typeof limit !== "number" || limit < 1
|| limit > 50` throws (`Except.error`, storage untouched); otherwise
`chrome.storage.sync.set({maxDomain: limit})` persists the value. -/
def setDomainLimit (limit : JSValue) (storage : SyncStorage) : Except String SyncStorage :=
  match limit with
  | .number n =>
    if jsLt n 1 || jsGt n 50 then .error "Domain limit must be a number between 1 and 50"
    else .ok { storage with maxDomain := some n }
  | _ => .error "Domain limit must be a number between 1 and 50"

/-- The default configuration seeded by `init`
(extension/background.js lines 543-552). -/
def defaultOptions : Options :=
  { maxTotal := 50, maxWindow := 20, maxDomain := 10, exceedTabNewWindow := false,
    displayAlert := true, countPinnedTabs := false, displayBadge := false,
    alertMessage := "Limit is {maxPlace} tabs in {place}" }

/-- Fixture: total cap 3 with relocation enabled. -/
def optsTotal3 : Options := { defaultOptions with maxTotal := 3, exceedTabNewWindow := true }

/-- Fixture: total cap 0 (nominally disabled). -/
def optsTotal0 : Options := { defaultOptions with maxTotal := 0 }

/-- Fixture: domain cap 0 (falsy, below 1). -/
def optsDomain0 : Options := { defaultOptions with maxDomain := 0 }

/-- Fixture: window and total caps 0, domain cap negative. -/
def optsDisabled : Options :=
  { defaultOptions with maxWindow := 0, maxTotal := 0, maxDomain := -2 }

/-- Fixture: the alert scenario configuration — domain cap 2, alerts on,
default template. -/
def optsScenario : Options := { defaultOptions with maxDomain := 2 }

/-- Fixture: the alert scenario's open-tab URLs — two example.com tabs plus
the newly created www.example.com tab. -/
def scenarioUrls : List String :=
  ["https://example.com/a", "https://example.com/b", "https://www.example.com/page"]

/-- Fixture: snapshots for the alert scenario — the immediate pass sees three
tabs on the created tab's domain key. -/
def scenarioSnapshots : Snapshots :=
  { domainCount1 := 3, windowCount1 := 3, totalCount1 := 3, domainCount2 := 3,
    windowCount2 := 3, totalCount2 := 3, exceedTotal1 := 3, windows := [],
    exceedTotal2 := 3 }

/-- Fixture: default configuration with the badge enabled. -/
def optsBadge : Options := { defaultOptions with displayBadge := true }

/-- Fixture: window cap 5 with relocation enabled (the P4 scenario). -/
def optsP4 : Options := { defaultOptions with maxWindow := 5, exceedTabNewWindow := true }

/-- Fixture: two windows with spare capacities 3 and 1 under `optsP4`. -/
def windowsP4 : List WindowInfo :=
  [⟨1, [false, false]⟩, ⟨2, [false, false, false, false]⟩]

/-- Fixture: window cap 1. -/
def optsWindow1 : Options := { defaultOptions with maxWindow := 1 }

/-- Fixture: snapshots where the immediate pass sees a window violation and
the settle-pass recheck sees counts back within all limits. -/
def snapWindowCalm : Snapshots :=
  { domainCount1 := 1, windowCount1 := 2, totalCount1 := 2, domainCount2 := 1,
    windowCount2 := 1, totalCount2 := 1, exceedTotal1 := 1, windows := [],
    exceedTotal2 := 1 }

/-- Fixture: snapshots whose immediate pass already sees the created tab's
domain at the default cap. -/
def snapDomainBurst : Snapshots :=
  { domainCount1 := 10, windowCount1 := 0, totalCount1 := 0, domainCount2 := 0,
    windowCount2 := 0, totalCount2 := 0, exceedTotal1 := 0, windows := [],
    exceedTotal2 := 0 }

/-- C9: whenever `handleExceedTabs` runs — for any violation category and any
settings — a global tab count at or above `maxTotal` makes the critical
pre-check remove the tab and alert under the "total" category.  The `≥`
comparison fires already at equality, and there is no `maxTotal ≥ 1` guard,
so the pre-check applies even when `maxTotal` is below 1. -/
theorem handleExceedTabs_total_precheck (options : Options) (place : Place)
    (totalTabs1 : Nat) (windows : List WindowInfo) (totalTabs2 : Nat)
    (h : (totalTabs1 : Int) ≥ options.maxTotal) :
    handleExceedTabs options place totalTabs1 windows totalTabs2 = .removed .total := by
  unfold handleExceedTabs
  rw [if_pos h]

/-- C9 witness: with `maxTotal = 0` (below 1, enforcement nominally disabled)
and a global count merely equal to the cap, the pre-check still closes the
tab under the total category. -/
theorem handleExceedTabs_total_precheck_witness :
    (((0 : Nat) : Int) ≥ optsTotal0.maxTotal ∧ optsTotal0.maxTotal < 1 ∧
      ((0 : Nat) : Int) = optsTotal0.maxTotal) ∧
    handleExceedTabs optsTotal0 .window 0 [] 0 = .removed .total :=
  ⟨⟨by decide, by decide, by decide⟩,
    handleExceedTabs_total_precheck optsTotal0 .window 0 [] 0 (by decide)⟩

/-- C5 counterexample: `maxDomain = 0` is a cap value below 1, yet domain
enforcement is not disabled — a domain count of 10 is still reported as a
violation, because the falsy cap falls back to the default limit 10. -/
theorem capBelowOne_domain_counterexample :
    optsDomain0.maxDomain < 1 ∧
    detectTooManyTabsInDomain optsDomain0 10 = some .domain :=
  ⟨by decide, by decide⟩

/-- C5 amended: a cap below 1 disables enforcement for the window and total
categories, but not for the domain category: `maxDomain = 0` (or unset) falls
back to the default limit 10, and a negative `maxDomain` makes every count a
violation. -/
theorem capBelowOne_semantics (options : Options) (c : Nat) :
    (options.maxWindow < 1 → detectTooManyTabsInWindow options c = none) ∧
    (options.maxTotal < 1 → detectTooManyTabsInTotal options c = none) ∧
    (options.maxDomain = 0 →
      (detectTooManyTabsInDomain options c = some .domain ↔ (c : Int) ≥ (10 : Int))) ∧
    (options.maxDomain < 0 → detectTooManyTabsInDomain options c = some .domain) := by
  refine ⟨?_, ?_, ?_, ?_⟩
  · intro h
    unfold detectTooManyTabsInWindow
    rw [if_pos h]
  · intro h
    unfold detectTooManyTabsInTotal
    rw [if_pos h]
  · intro h
    unfold detectTooManyTabsInDomain domainLimit
    rw [if_pos h]
    by_cases hc : (c : Int) ≥ (10 : Int)
    · rw [if_pos hc]
      simp [hc]
    · rw [if_neg hc]
      simp [hc]
  · intro h
    have h0 : ¬ options.maxDomain = 0 := by omega
    have hge : (c : Int) ≥ options.maxDomain :=
      le_of_lt (lt_of_lt_of_le h (Int.natCast_nonneg c))
    unfold detectTooManyTabsInDomain domainLimit
    rw [if_neg h0, if_pos hge]

/-- C5 amended witness: caps of 0 silence the window and total detectors; a
negative domain cap flags a violation at any count, and a zero domain cap
flags one exactly at the fallback limit 10. -/
theorem capBelowOne_semantics_witness :
    detectTooManyTabsInWindow optsDisabled 99 = none ∧
    detectTooManyTabsInTotal optsDisabled 99 = none ∧
    detectTooManyTabsInDomain optsDisabled 99 = some .domain ∧
    detectTooManyTabsInDomain optsDomain0 10 = some .domain :=
  ⟨(capBelowOne_semantics optsDisabled 99).1 (by decide),
   (capBelowOne_semantics optsDisabled 99).2.1 (by decide),
   (capBelowOne_semantics optsDisabled 99).2.2.2 (by decide),
   ((capBelowOne_semantics optsDomain0 10).2.2.1 (by decide)).mpr (by decide)⟩

/-- C7: with a positive domain cap (the configuration invariant), the domain
detector reports a violation exactly when the domain count is at or above
`maxDomain`, while the window and total detectors report one only when their
counts are strictly greater than their caps. -/
theorem detect_comparison_asymmetry (options : Options)
    (domainCount windowCount totalCount : Nat) (h : 1 ≤ options.maxDomain) :
    (detectTooManyTabsInDomain options domainCount = some .domain ↔
      (domainCount : Int) ≥ options.maxDomain) ∧
    (detectTooManyTabsInWindow options windowCount = some .window →
      (windowCount : Int) > options.maxWindow) ∧
    (detectTooManyTabsInTotal options totalCount = some .total →
      (totalCount : Int) > options.maxTotal) := by
  refine ⟨?_, ?_, ?_⟩
  · have h0 : ¬ options.maxDomain = 0 := by omega
    unfold detectTooManyTabsInDomain domainLimit
    rw [if_neg h0]
    by_cases hc : (domainCount : Int) ≥ options.maxDomain
    · rw [if_pos hc]
      simp [hc]
    · rw [if_neg hc]
      simp [hc]
  · unfold detectTooManyTabsInWindow
    by_cases h1 : options.maxWindow < 1
    · rw [if_pos h1]
      intro hx
      simp at hx
    · rw [if_neg h1]
      by_cases h2 : (windowCount : Int) > options.maxWindow
      · rw [if_pos h2]
        intro _
        exact h2
      · rw [if_neg h2]
        intro hx
        simp at hx
  · unfold detectTooManyTabsInTotal
    by_cases h1 : options.maxTotal < 1
    · rw [if_pos h1]
      intro hx
      simp at hx
    · rw [if_neg h1]
      by_cases h2 : (totalCount : Int) > options.maxTotal
      · rw [if_pos h2]
        intro _
        exact h2
      · rw [if_neg h2]
        intro hx
        simp at hx

/-- C7 witness: under the default caps, a domain count equal to `maxDomain`
is already a violation, and the window/total conclusions instantiate at
counts one above their caps. -/
theorem detect_comparison_asymmetry_witness :
    1 ≤ defaultOptions.maxDomain ∧
    detectTooManyTabsInDomain defaultOptions 10 = some .domain ∧
    ((21 : Nat) : Int) > defaultOptions.maxWindow ∧
    ((51 : Nat) : Int) > defaultOptions.maxTotal :=
  ⟨by decide,
   ((detect_comparison_asymmetry defaultOptions 10 21 51 (by decide)).1).mpr (by decide),
   (detect_comparison_asymmetry defaultOptions 10 21 51 (by decide)).2.1 (by decide),
   (detect_comparison_asymmetry defaultOptions 10 21 51 (by decide)).2.2 (by decide)⟩

/-- C8 counterexample: with 48 of 50 tabs in total, 19 of 20 in the current
window and the active tab's domain at its cap (remaining 0), the code writes
badge text "1"; the spec-modelled badge including the domain term would write
"0". -/
theorem updateBadge_counterexample :
    updateBadge optsBadge 19 48 = "1" ∧
    specBadgeText optsBadge 19 48 10 = "0" ∧
    updateBadge optsBadge 19 48 ≠ specBadgeText optsBadge 19 48 10 :=
  ⟨by decide, by decide, by decide⟩

/-- C8 amended: on every badge refresh with `displayBadge` enabled the badge
text is the minimum of remaining-window and remaining-total converted to a
string — the active tab's domain capacity never enters the computation, also
in the domain-aware revision; with `displayBadge` disabled the badge is
cleared to the empty string. -/
theorem updateBadge_minimum (options : Options) (windowTabCount totalTabCount : Nat) :
    (options.displayBadge = true →
      updateBadge options windowTabCount totalTabCount =
        toString (min (options.maxWindow - (windowTabCount : Int))
          (options.maxTotal - (totalTabCount : Int)))) ∧
    (options.displayBadge = false →
      updateBadge options windowTabCount totalTabCount = "") := by
  constructor
  · intro h
    unfold updateBadge windowRemaining totalRemaining
    rw [if_neg (by simp [h])]
  · intro h
    unfold updateBadge
    rw [if_pos h]

/-- C8 amended witness: the P5 instance — 19 of 20 in-window and 48 of 50 in
total yield badge "1"; disabling the badge clears it. -/
theorem updateBadge_minimum_witness :
    optsBadge.displayBadge = true ∧
    updateBadge optsBadge 19 48 =
      toString (min (optsBadge.maxWindow - ((19 : Nat) : Int))
        (optsBadge.maxTotal - ((48 : Nat) : Int))) ∧
    updateBadge defaultOptions 19 48 = "" :=
  ⟨rfl, (updateBadge_minimum optsBadge 19 48).1 rfl,
   (updateBadge_minimum defaultOptions 19 48).2 rfl⟩

/-- C10 counterexample: NaN has JS type "number" and is not a number between
1 and 50 (it equals no finite value at all), yet `setDomainLimit` accepts it
— both validation comparisons are false on NaN — and writes it to storage. -/
theorem setDomainLimit_nan_counterexample :
    (∀ v : Int, JSNumber.nan ≠ JSNumber.finite v) ∧
    setDomainLimit (.number .nan) ⟨none⟩ = .ok ⟨some .nan⟩ :=
  ⟨fun _ h => JSNumber.noConfusion h, rfl⟩

/-- C10 amended: `setDomainLimit` accepts exactly the number arguments for
which neither JS comparison `limit < 1` nor `limit > 50` holds — the finite
numbers in [1, 50] and NaN; every other argument (non-numbers, finite numbers
outside the range, the infinities) makes it throw before the storage write.
Consequently a finite persisted cap is never below 1 or above 50. -/
theorem setDomainLimit_validation (limit : JSValue) (storage : SyncStorage) :
    (((∃ v : Int, limit = .number (.finite v) ∧ 1 ≤ v ∧ v ≤ 50) ∨ limit = .number .nan) ↔
      (∃ n, setDomainLimit limit storage = .ok { storage with maxDomain := some n })) ∧
    (∀ v : Int,
      setDomainLimit limit storage = .ok { storage with maxDomain := some (.finite v) } →
      1 ≤ v ∧ v ≤ 50) := by
  constructor
  · constructor
    · rintro (⟨v, rfl, h1, h2⟩ | rfl)
      · refine ⟨.finite v, ?_⟩
        simp only [setDomainLimit, jsLt, jsGt]
        rw [if_neg (by simp; omega)]
      · exact ⟨.nan, rfl⟩
    · rintro ⟨n, h⟩
      cases limit with
      | number m =>
        cases m with
        | finite v =>
          simp only [setDomainLimit, jsLt, jsGt] at h
          by_cases hv : v < 1 ∨ v > 50
          · rw [if_pos (by simp; omega)] at h
            exact Except.noConfusion h
          · push_neg at hv
            exact Or.inl ⟨v, rfl, by omega, by omega⟩
        | posInf =>
          simp only [setDomainLimit, jsLt, jsGt] at h
          exact Except.noConfusion h
        | negInf =>
          simp only [setDomainLimit, jsLt, jsGt] at h
          exact Except.noConfusion h
        | nan => exact Or.inr rfl
      | str s => exact Except.noConfusion h
      | boolean b => exact Except.noConfusion h
      | undefined => exact Except.noConfusion h
      | null => exact Except.noConfusion h
  · intro v h
    cases limit with
    | number m =>
      cases m with
      | finite w =>
        simp only [setDomainLimit, jsLt, jsGt] at h
        by_cases hv : w < 1 ∨ w > 50
        · rw [if_pos (by simp; omega)] at h
          exact Except.noConfusion h
        · rw [if_neg (by simp; omega)] at h
          simp only [Except.ok.injEq, SyncStorage.mk.injEq, Option.some.injEq,
            JSNumber.finite.injEq] at h
          omega
      | posInf =>
        simp only [setDomainLimit, jsLt, jsGt] at h
        exact Except.noConfusion h
      | negInf =>
        simp only [setDomainLimit, jsLt, jsGt] at h
        exact Except.noConfusion h
      | nan =>
        simp [setDomainLimit, jsLt, jsGt] at h
    | str s => exact Except.noConfusion h
    | boolean b => exact Except.noConfusion h
    | undefined => exact Except.noConfusion h
    | null => exact Except.noConfusion h

/-- C10 amended witness: the in-range value 7 is accepted and persisted, and
the theorem's range conclusion instantiates on it; the out-of-range value 0
and a string argument throw. -/
theorem setDomainLimit_validation_witness :
    setDomainLimit (.number (.finite 7)) ⟨none⟩ = .ok ⟨some (.finite 7)⟩ ∧
    (1 ≤ (7 : Int) ∧ (7 : Int) ≤ 50) ∧
    setDomainLimit (.number (.finite 0)) ⟨some (.finite 7)⟩ =
      .error "Domain limit must be a number between 1 and 50" ∧
    setDomainLimit (.str "9") ⟨some (.finite 7)⟩ =
      .error "Domain limit must be a number between 1 and 50" :=
  ⟨rfl, (setDomainLimit_validation (.number (.finite 7)) ⟨none⟩).2 7 rfl, rfl, rfl⟩

/-- C1: in `handleExceedTabs` the total cap is checked first and enforced
unconditionally — a strictly exceeded total at the first check removes the
tab under "total" regardless of `exceedTabNewWindow` and of the detected
category; when a relocation is attempted, a total exceeded at the re-check
aborts it and closes the tab under "total"; and a relocation (move or new
window) is only ever applied with both total checks strictly under the cap. -/
theorem handleExceedTabs_total_first (options : Options) (place : Place)
    (totalTabs1 : Nat) (windows : List WindowInfo) (totalTabs2 : Nat) :
    ((totalTabs1 : Int) > options.maxTotal →
      handleExceedTabs options place totalTabs1 windows totalTabs2 = .removed .total) ∧
    (options.exceedTabNewWindow = true → place = .window →
      (totalTabs2 : Int) > options.maxTotal →
      handleExceedTabs options place totalTabs1 windows totalTabs2 = .removed .total) ∧
    (∀ wid p m,
      handleExceedTabs options place totalTabs1 windows totalTabs2 = .moved wid p m →
      (totalTabs1 : Int) < options.maxTotal ∧ (totalTabs2 : Int) < options.maxTotal) ∧
    (∀ p m,
      handleExceedTabs options place totalTabs1 windows totalTabs2 = .createdWindow p m →
      (totalTabs1 : Int) < options.maxTotal ∧ (totalTabs2 : Int) < options.maxTotal) := by
  refine ⟨?_, ?_, ?_, ?_⟩
  · intro h1
    unfold handleExceedTabs
    rw [if_pos (le_of_lt h1)]
  · intro hE hp h2
    by_cases h1 : (totalTabs1 : Int) ≥ options.maxTotal
    · unfold handleExceedTabs
      rw [if_pos h1]
    · unfold handleExceedTabs
      rw [if_neg h1, if_pos ⟨hE, hp⟩, if_pos (le_of_lt h2)]
  · intro wid p m hm
    by_cases h1 : (totalTabs1 : Int) ≥ options.maxTotal
    · unfold handleExceedTabs at hm
      rw [if_pos h1] at hm
      exact absurd hm (by simp)
    · by_cases hE : options.exceedTabNewWindow = true ∧ place = .window
      · by_cases h2 : (totalTabs2 : Int) ≥ options.maxTotal
        · unfold handleExceedTabs at hm
          rw [if_neg h1, if_pos hE, if_pos h2] at hm
          exact absurd hm (by simp)
        · exact ⟨not_le.mp h1, not_le.mp h2⟩
      · unfold handleExceedTabs at hm
        rw [if_neg h1, if_neg hE] at hm
        exact absurd hm (by simp)
  · intro p m hm
    by_cases h1 : (totalTabs1 : Int) ≥ options.maxTotal
    · unfold handleExceedTabs at hm
      rw [if_pos h1] at hm
      exact absurd hm (by simp)
    · by_cases hE : options.exceedTabNewWindow = true ∧ place = .window
      · by_cases h2 : (totalTabs2 : Int) ≥ options.maxTotal
        · unfold handleExceedTabs at hm
          rw [if_neg h1, if_pos hE, if_pos h2] at hm
          exact absurd hm (by simp)
        · exact ⟨not_le.mp h1, not_le.mp h2⟩
      · unfold handleExceedTabs at hm
        rw [if_neg h1, if_neg hE] at hm
        exact absurd hm (by simp)

/-- C1 witness: a total strictly over a cap of 3 closes the tab under
"total" even for a detected domain violation with relocation enabled, and a
relocation attempt whose re-check sees the total strictly exceeded is aborted
into the total path. -/
theorem handleExceedTabs_total_first_witness :
    (((5 : Nat) : Int) > optsTotal3.maxTotal ∧
      handleExceedTabs optsTotal3 .domain 5 [] 0 = .removed .total) ∧
    (optsTotal3.exceedTabNewWindow = true ∧ ((4 : Nat) : Int) > optsTotal3.maxTotal ∧
      handleExceedTabs optsTotal3 .window 0 [] 4 = .removed .total) :=
  ⟨⟨by decide, (handleExceedTabs_total_first optsTotal3 .domain 5 [] 0).1 (by decide)⟩,
   ⟨rfl, by decide,
    (handleExceedTabs_total_first optsTotal3 .window 0 [] 4).2.1 rfl rfl (by decide)⟩⟩

/-- C2 counterexample: a domain violation seen by the immediate pass is acted
on at once — the tab is removed (`chrome.tabs.remove`) with a "domain" alert
before the 100ms settle delay, so the immediate pass is not informational
only. -/
theorem handleTabCreated_immediate_counterexample :
    detectTooManyTabsInDomain defaultOptions snapDomainBurst.domainCount1 = some .domain ∧
    handleTabCreated defaultOptions snapDomainBurst = .immediateDomainRemove :=
  ⟨by decide, by decide⟩

/-- C2 amended: limits are evaluated in an immediate pass and a settle-delay
pass, and window/total violations trigger remedial action only on the second
pass (the immediate pass merely schedules the recheck); but a domain
violation detected by the immediate pass removes the tab immediately, and the
second pass runs only when the immediate pass detected a window or total
violation. -/
theorem handleTabCreated_two_pass (options : Options) (s : Snapshots) :
    (handleTabCreated options s = .immediateDomainRemove ↔
      detectTooManyTabsInDomain options s.domainCount1 ≠ none) ∧
    (detectTooManyTabsInDomain options s.domainCount1 = none →
      raceWindowTotal options s.windowCount1 s.totalCount1 = none →
      handleTabCreated options s = .noViolation) ∧
    (∀ r, handleTabCreated options s = .settled r →
      detectTooManyTabsInDomain options s.domainCount1 = none ∧
      raceWindowTotal options s.windowCount1 s.totalCount1 ≠ none) := by
  rcases hd : detectTooManyTabsInDomain options s.domainCount1 with _ | p
  · rcases hr : raceWindowTotal options s.windowCount1 s.totalCount1 with _ | q
    · refine ⟨?_, ?_, ?_⟩
      · simp [handleTabCreated, hd, hr]
      · intro _ _
        simp [handleTabCreated, hd, hr]
      · intro r hst
        simp [handleTabCreated, hd, hr] at hst
    · rcases hd2 : detectTooManyTabsInDomain options s.domainCount2 with _ | p2
      · rcases hr2 : raceWindowTotal options s.windowCount2 s.totalCount2 with _ | q2
        · refine ⟨?_, ?_, ?_⟩
          · simp [handleTabCreated, hd, hr, hd2, hr2]
          · intro _ hcontra
            exact absurd hcontra (by simp)
          · intro r _
            exact ⟨rfl, by simp⟩
        · refine ⟨?_, ?_, ?_⟩
          · simp [handleTabCreated, hd, hr, hd2, hr2]
          · intro _ hcontra
            exact absurd hcontra (by simp)
          · intro r _
            exact ⟨rfl, by simp⟩
      · refine ⟨?_, ?_, ?_⟩
        · simp [handleTabCreated, hd, hr, hd2]
        · intro _ hcontra
          exact absurd hcontra (by simp)
        · intro r _
          exact ⟨rfl, by simp⟩
  · refine ⟨?_, ?_, ?_⟩
    · simp [handleTabCreated, hd]
    · intro hcontra _
      exact absurd hcontra (by simp)
    · intro r hst
      simp [handleTabCreated, hd] at hst

/-- C2 amended witness: an immediate-pass window violation whose settle-pass
recheck finds everything back within limits ends the cycle with no action —
the remedial machinery only ever runs from the settled pass. -/
theorem handleTabCreated_two_pass_witness :
    handleTabCreated optsWindow1 snapWindowCalm = .settled none ∧
    (detectTooManyTabsInDomain optsWindow1 snapWindowCalm.domainCount1 = none ∧
      raceWindowTotal optsWindow1 snapWindowCalm.windowCount1
        snapWindowCalm.totalCount1 ≠ none) :=
  ⟨by decide, (handleTabCreated_two_pass optsWindow1 snapWindowCalm).2.2 none (by decide)⟩

/-- The accumulator's running maximum never decreases along the best-window
fold. -/
theorem bestWindowFold_snd_mono (options : Options) (ws : List WindowInfo)
    (acc : Option WindowInfo × Int) :
    acc.2 ≤ (ws.foldl (bestWindowStep options) acc).2 := by
  induction ws generalizing acc with
  | nil => exact le_refl _
  | cons x ws ih =>
    refine le_trans ?_ (ih (bestWindowStep options acc x))
    unfold bestWindowStep
    by_cases h : remainingCapacity options x > acc.2
    · rw [if_pos h]
      exact le_of_lt h
    · rw [if_neg h]

/-- Every listed window's remaining capacity is bounded by the fold's final
running maximum. -/
theorem bestWindowFold_ub (options : Options) (ws : List WindowInfo)
    (acc : Option WindowInfo × Int) (w : WindowInfo) :
    w ∈ ws → remainingCapacity options w ≤ (ws.foldl (bestWindowStep options) acc).2 := by
  induction ws generalizing acc with
  | nil =>
    intro hw
    cases hw
  | cons x ws ih =>
    intro hw
    rcases List.mem_cons.mp hw with rfl | hmem
    · refine le_trans ?_ (bestWindowFold_snd_mono options ws (bestWindowStep options acc w))
      unfold bestWindowStep
      by_cases h : remainingCapacity options w > acc.2
      · rw [if_pos h]
      · rw [if_neg h]
        exact not_lt.mp h
    · exact ih (bestWindowStep options acc x) hmem

/-- Invariant of the best-window fold: the running maximum stays nonnegative,
is 0 while no window has been selected, and equals the selected window's
(positive) remaining capacity once one has. -/
theorem bestWindowFold_inv (options : Options) (ws : List WindowInfo)
    (acc : Option WindowInfo × Int) (h0 : 0 ≤ acc.2)
    (hnone : acc.1 = none → acc.2 = 0)
    (hsome : ∀ w, acc.1 = some w →
      remainingCapacity options w = acc.2 ∧ 0 < acc.2) :
    (0 ≤ (ws.foldl (bestWindowStep options) acc).2) ∧
    ((ws.foldl (bestWindowStep options) acc).1 = none →
      (ws.foldl (bestWindowStep options) acc).2 = 0) ∧
    (∀ w, (ws.foldl (bestWindowStep options) acc).1 = some w →
      remainingCapacity options w = (ws.foldl (bestWindowStep options) acc).2 ∧
      0 < (ws.foldl (bestWindowStep options) acc).2) := by
  induction ws generalizing acc with
  | nil => exact ⟨h0, hnone, hsome⟩
  | cons x ws ih =>
    apply ih
    · unfold bestWindowStep
      by_cases h : remainingCapacity options x > acc.2
      · rw [if_pos h]
        exact le_of_lt (lt_of_le_of_lt h0 h)
      · rw [if_neg h]
        exact h0
    · unfold bestWindowStep
      by_cases h : remainingCapacity options x > acc.2
      · rw [if_pos h]
        intro hx
        exact absurd hx (by simp)
      · rw [if_neg h]
        exact hnone
    · intro w
      unfold bestWindowStep
      by_cases h : remainingCapacity options x > acc.2
      · rw [if_pos h]
        intro hx
        have hxw : x = w := Option.some.inj hx
        subst hxw
        exact ⟨rfl, lt_of_le_of_lt h0 h⟩
      · rw [if_neg h]
        exact hsome w

/-- A window selected by the best-window fold comes from the folded list (or
was already selected in the accumulator). -/
theorem bestWindowFold_mem (options : Options) (ws : List WindowInfo)
    (acc : Option WindowInfo × Int) (w : WindowInfo)
    (h : (ws.foldl (bestWindowStep options) acc).1 = some w) :
    acc.1 = some w ∨ w ∈ ws := by
  induction ws generalizing acc with
  | nil => exact Or.inl h
  | cons x ws ih =>
    rcases ih (bestWindowStep options acc x) h with hx | hmem
    · unfold bestWindowStep at hx
      by_cases hc : remainingCapacity options x > acc.2
      · rw [if_pos hc] at hx
        exact Or.inr (List.mem_cons.mpr (Or.inl (Option.some.inj hx).symm))
      · rw [if_neg hc] at hx
        exact Or.inl hx
    · exact Or.inr (List.mem_cons.mpr (Or.inr hmem))

/-- C6: acting on a window violation with `exceedTabNewWindow` enabled and
the total cap strictly respected at both checks, the controller moves the tab
into a listed window of maximal remaining capacity (computed with
`countPinnedTabs` respected) and focuses it, whenever some window has
positive spare capacity; when no window has positive spare capacity it
creates a new window for the tab instead. -/
theorem handleExceedTabs_relocation (options : Options)
    (totalTabs1 : Nat) (windows : List WindowInfo) (totalTabs2 : Nat)
    (hE : options.exceedTabNewWindow = true)
    (h1 : (totalTabs1 : Int) < options.maxTotal)
    (h2 : (totalTabs2 : Int) < options.maxTotal) :
    ((∃ w ∈ windows, 0 < remainingCapacity options w) →
      ∃ w ∈ windows,
        handleExceedTabs options .window totalTabs1 windows totalTabs2 =
          .moved w.id .window true ∧
        ∀ x ∈ windows, remainingCapacity options x ≤ remainingCapacity options w) ∧
    ((∀ w ∈ windows, remainingCapacity options w ≤ 0) →
      handleExceedTabs options .window totalTabs1 windows totalTabs2 =
        .createdWindow .window true) := by
  have hA := bestWindowFold_inv options windows (none, 0) (le_refl 0)
    (fun _ => rfl) (fun w hw => absurd hw (by simp))
  constructor
  · rintro ⟨w0, hw0, hcap⟩
    have hub : remainingCapacity options w0 ≤ (bestWindowLoop options windows).2 :=
      bestWindowFold_ub options windows (none, 0) w0 hw0
    have hpos : 0 < (bestWindowLoop options windows).2 := lt_of_lt_of_le hcap hub
    rcases hr : (bestWindowLoop options windows).1 with _ | wstar
    · have : (bestWindowLoop options windows).2 = 0 := hA.2.1 hr
      omega
    · have hw := hA.2.2 wstar hr
      rcases bestWindowFold_mem options windows (none, 0) wstar hr with hh | hmem
      · exact absurd hh (by simp)
      · refine ⟨wstar, hmem, ?_, ?_⟩
        · unfold handleExceedTabs
          rw [if_neg (not_le.mpr h1), if_pos ⟨hE, rfl⟩, if_neg (not_le.mpr h2), hr]
          show (if (bestWindowLoop options windows).2 > 0
            then ExceedResult.moved wstar.id .window true
            else ExceedResult.createdWindow .window true) = .moved wstar.id .window true
          rw [if_pos hpos]
        · intro x hx
          rw [hw.1]
          exact bestWindowFold_ub options windows (none, 0) x hx
  · intro hall
    unfold handleExceedTabs
    rw [if_neg (not_le.mpr h1), if_pos ⟨hE, rfl⟩, if_neg (not_le.mpr h2)]
    rcases hr : (bestWindowLoop options windows).1 with _ | wstar
    · rfl
    · have hw := hA.2.2 wstar hr
      rcases bestWindowFold_mem options windows (none, 0) wstar hr with hh | hmem
      · exact absurd hh (by simp)
      · have hle := hall wstar hmem
        rw [hw.1] at hle
        exact absurd hw.2 (by omega)

/-- C6 witness: the P4 instance — windows with spare capacities 3 and 1 under
a cap of 5: the relocated tab goes to the capacity-3 window (id 1), which is
focused. -/
theorem handleExceedTabs_relocation_witness :
    (optsP4.exceedTabNewWindow = true ∧ ((6 : Nat) : Int) < optsP4.maxTotal) ∧
    (∃ w ∈ windowsP4,
      handleExceedTabs optsP4 .window 6 windowsP4 6 = .moved w.id .window true ∧
      ∀ x ∈ windowsP4, remainingCapacity optsP4 x ≤ remainingCapacity optsP4 w) ∧
    handleExceedTabs optsP4 .window 6 windowsP4 6 = .moved 1 .window true :=
  ⟨⟨rfl, by decide⟩,
   (handleExceedTabs_relocation optsP4 6 windowsP4 6 rfl (by decide) (by decide)).1
     ⟨⟨1, [false, false]⟩, by decide, by decide⟩,
   by decide⟩

/-- Helper: an IPv4-matching hostname is neither "localhost" nor "::1". -/
theorem isIPv4Chars_not_reserved (h : List Char) (hip : isIPv4Chars h = true) :
    h ≠ "localhost".data ∧ h ≠ "::1".data := by
  constructor
  · rintro rfl
    exact absurd hip (by decide)
  · rintro rfl
    exact absurd hip (by decide)

/-- Helper: on IPv4-matching hostnames the enforcement classifier is the
identity except at the loopback address. -/
theorem classifyHostnameChars_ipv4 (h : List Char) (hip : isIPv4Chars h = true) :
    classifyHostnameChars h =
      if h = "127.0.0.1".data then "localhost".data else h := by
  have hres := isIPv4Chars_not_reserved h hip
  by_cases h127 : h = "127.0.0.1".data
  · rw [if_pos h127]
    unfold classifyHostnameChars
    rw [if_pos (Or.inr (Or.inl h127))]
  · rw [if_neg h127]
    have hcond : ¬(h = "localhost".data ∨ h = "127.0.0.1".data ∨ h = "::1".data) := by
      rintro (he | he | he)
      · exact hres.1 he
      · exact h127 he
      · exact hres.2 he
    unfold classifyHostnameChars
    rw [if_neg hcond, if_pos hip]

/-- Helper: distinct IPv4-matching hostnames classify to distinct keys. -/
theorem classify_ipv4_injective (h1 h2 : List Char)
    (hip1 : isIPv4Chars h1 = true) (hip2 : isIPv4Chars h2 = true) (hne : h1 ≠ h2) :
    classifyHostnameChars h1 ≠ classifyHostnameChars h2 := by
  rw [classifyHostnameChars_ipv4 h1 hip1, classifyHostnameChars_ipv4 h2 hip2]
  by_cases a : h1 = "127.0.0.1".data <;> by_cases b : h2 = "127.0.0.1".data
  · exact absurd (a.trans b.symm) hne
  · rw [if_pos a, if_neg b]
    intro he
    rw [← he] at hip2
    exact absurd hip2 (by decide)
  · rw [if_neg a, if_pos b]
    intro he
    rw [he] at hip1
    exact absurd hip1 (by decide)
  · rw [if_neg a, if_neg b]
    exact hne

/-- C3 counterexample: "https://mail.google.com/x" and
"https://drive.google.com/y" share the registrable root google.com (the
options-page helper maps both to it), yet the classifier used for counting
and enforcement returns the distinct keys "mail.google.com" and
"drive.google.com". -/
theorem domainClassifier_counterexample :
    extractDomain "https://mail.google.com/x" = some "google.com" ∧
    extractDomain "https://drive.google.com/y" = some "google.com" ∧
    extractDomainFromUrl "https://mail.google.com/x" = "mail.google.com" ∧
    extractDomainFromUrl "https://drive.google.com/y" = "drive.google.com" ∧
    extractDomainFromUrl "https://mail.google.com/x" ≠
      extractDomainFromUrl "https://drive.google.com/y" :=
  ⟨by decide, by decide, by decide, by decide, by decide⟩

/-- C3 amended: the enforcement classifier only strips a single leading
"www." label and otherwise keeps the hostname verbatim — www.example.com and
example.com share a key, while mail.google.com and drive.google.com (and
foo.github.io and bar.github.io) stay distinct; the collapse to the
registrable root domain with multi-part-suffix handling is performed by the
options-page analysis helper `extractDomain`; and distinct IP-literal
hostnames never collapse to the same key in the enforcement classifier. -/
theorem domainClassifier_amended :
    (∀ u1 u2 : String, isIPv4 u1 = true → isIPv4 u2 = true → u1 ≠ u2 →
      classifyHostname u1 ≠ classifyHostname u2) ∧
    classifyHostname "www.example.com" = classifyHostname "example.com" ∧
    extractDomainFromUrl "https://mail.google.com/x" = "mail.google.com" ∧
    extractDomain "https://mail.google.com/x" = some "google.com" ∧
    extractDomain "https://drive.google.com/y" = some "google.com" ∧
    extractDomainFromUrl "https://foo.github.io/a" ≠
      extractDomainFromUrl "https://bar.github.io/b" ∧
    extractDomain "https://foo.github.io/a" ≠ extractDomain "https://bar.github.io/b" := by
  refine ⟨?_, by decide, by decide, by decide, by decide, by decide, by decide⟩
  intro u1 u2 h1 h2 hne hc
  exact classify_ipv4_injective u1.data u2.data h1 h2
    (fun he => hne (congrArg String.mk he)) (congrArg String.data hc)

/-- C3 amended witness: two concrete distinct IPv4 literals keep distinct
classifier keys. -/
theorem domainClassifier_amended_witness :
    isIPv4 "192.168.1.1" = true ∧ isIPv4 "10.0.0.1" = true ∧
    classifyHostname "192.168.1.1" ≠ classifyHostname "10.0.0.1" :=
  ⟨by decide, by decide,
   domainClassifier_amended.1 "192.168.1.1" "10.0.0.1" (by decide) (by decide) (by decide)⟩

/-- C4 (code bug): in the scenario — domain cap 2, two example.com tabs open,
a third tab created on https://www.example.com/page — the tab's key is
"example.com", its count is 3, and the new tab is removed at once; but the
rendered notification is "Limit is 2 tabs in per domain", which contains the
configured limit "2" yet not the offending domain name "example.com", because
`displayAlert` never receives the domain. -/
theorem domainAlert_missing_domain_name :
    extractDomainFromUrl "https://www.example.com/page" = "example.com" ∧
    countTabsForDomain scenarioUrls "example.com" = 3 ∧
    handleTabCreated optsScenario scenarioSnapshots = .immediateDomainRemove ∧
    displayAlert optsScenario .domain false = some "Limit is 2 tabs in per domain" ∧
    ("2".data <:+: "Limit is 2 tabs in per domain".data) ∧
    ¬ ("example.com".data <:+: "Limit is 2 tabs in per domain".data) :=
  ⟨by decide, by decide, by decide, by decide, by decide, by decide⟩

end TabLimiter
